import Mathlib

/-!
# Calmdog controller — a shallow embedding of `src/main.cpp`

The program is a single-file ESP32 sketch: it calibrates a noise threshold
from 100 baseline microphone samples, debounces sustained loud noise in
`loop()`, and on a sustained-noise trigger plays `calm.wav` from SD through
the DAC with a 30000 ms playback cap (`reproducirAudio`).

Machine integers are modelled as `Nat`: every quantity involved
(ADC samples 0–4095, 100-sample sums, millisecond timestamps within a run)
is non-negative and far below every relevant C type's range, and the
`unsigned long` subtractions `millis() - t0` are only ever performed with
`millis() ≥ t0` under the monotone-time assumption used throughout
(wrap-around after 49.7 days is out of scope).
-/

namespace Calmdog

/-! ## Calibration (`calibrarUmbral`, main.cpp lines 33–50)

`suma` accumulates 100 `analogRead` values, `promedio = suma / muestras` is
C integer division, and `umbralRuido = (int)(promedio * 2.5)` truncates the
double `promedio * 2.5` toward zero.  For a non-negative `promedio ≤ 4095`
the double product is exact and truncation is `floor`, i.e.
`(promedio * 5) / 2` in natural-number division. -/

def calibrarUmbral (samples : List Nat) : Nat :=
  ((samples.sum / 100) * 5) / 2

/-- The spec's stated calibration result, written from the spec's words:
`noiseThreshold = round(mean * 2.5)` with the arithmetic mean taken exactly
(as a rational) and `round` to the nearest integer. -/
def specRoundThreshold (samples : List Nat) : ℤ :=
  round (((samples.sum : ℚ) / (samples.length : ℚ)) * (5 / 2))

/-- What the code actually computes, written in the spec's floor/mean
vocabulary: the mean is truncated by integer division first, and the product
with 2.5 is then truncated (floored), never rounded. -/
def specTruncThreshold (samples : List Nat) : ℤ :=
  ⌊((samples.sum / 100 : ℕ) : ℚ) * (5 / 2)⌋

/-! ## Noise detector (`loop`, main.cpp lines 136–149)

The detection state is the single global `ultimoRuido`; `0` is the code's
sentinel for "no noise episode in progress" (Idle).  One `loop()` iteration
that is not in the playback branch performs `observe` on the current sample
and `millis()` value. -/

/-- One detector step: given threshold `u`, state `r` (= `ultimoRuido`),
the sample and the current time, return the new state and whether the
sustained-noise trigger fired (main.cpp lines 138–148). -/
def observe (u r sample now : Nat) : Nat × Bool :=
  if u < sample then
    if r = 0 then (now, false)
    else if 2000 < now - r then (0, true)
    else (r, false)
  else (0, false)

/-- The detector state after one observation `p = (sample, now)`. -/
def stepState (u r : Nat) (p : Nat × Nat) : Nat :=
  (observe u r p.1 p.2).1

/-- The detector state after a whole observation sequence. -/
def detState (u r : Nat) (obs : List (Nat × Nat)) : Nat :=
  obs.foldl (stepState u) r

/-- How many `Triggered` events a sequence of observations emits, starting
from detector state `r`. -/
def triggerCount (u r : Nat) : List (Nat × Nat) → Nat
  | [] => 0
  | p :: rest =>
      (if (observe u r p.1 p.2).2 then 1 else 0) +
        triggerCount u (stepState u r p) rest

/-- An above-threshold run as fed to the detector: every sample strictly
above the threshold, timestamps strictly increasing and positive (`millis()`
is far past 0 once `loop()` runs, and `0` is the code's Idle sentinel). -/
def isRun (u : Nat) (obs : List (Nat × Nat)) : Prop :=
  (∀ p ∈ obs, u < p.1) ∧ (∀ p ∈ obs, 0 < p.2) ∧
    obs.Pairwise (fun p q => p.2 < q.2)

instance (u : Nat) (obs : List (Nat × Nat)) : Decidable (isRun u obs) := by
  unfold isRun
  infer_instance

/-- The timestamp of the last observation of the run `first :: rest`. -/
def lastTime (first : Nat × Nat) (rest : List (Nat × Nat)) : Nat :=
  (rest.getLastD first).2

/-! ## Playback (`reproducirAudio`, main.cpp lines 53–105)

The environment of one invocation is: whether `SD.begin` succeeds, whether
`calm.wav` opens, the file's bytes, and the wall clock.  The clock is
abstracted as `elapsed k` = `millis() - inicioReproduccion` at the k-th
end-of-chunk duration check (`elapsed 0 = 0` corresponds to the moment
line 80 records the start).  All observable effects of the call are
collected in `PlayOutcome`. -/

/-- The exit classification of one `reproducirAudio` invocation, one case
per `return`/fall-through path of the C++ function (the function itself
returns `void`; the paths are distinguished by their position in the
code). -/
inductive PlaybackResult where
  | storageUnavailable
  | notFound
  | invalidFormat
  | maxDurationExceeded
  | completed
deriving DecidableEq, Repr

/-- The magic marker checked at main.cpp line 70: bytes 'R','I','F','F'. -/
def wavMagic : List Nat := [82, 73, 70, 70]

/-- Arduino `map(b, 0, 255, 0, VOLUME_LEVEL)` with `VOLUME_LEVEL = 180`
(main.cpp line 88): integer arithmetic, so `b * 180 / 255`. -/
def mapVolume (b : Nat) : Nat :=
  b * 180 / 255

/-- Number of iterations of the 512-byte read loop a stream causes: one
per started 512-byte chunk. -/
def numChunks : List Nat → Nat
  | [] => 0
  | a :: as => numChunks ((a :: as).drop 512) + 1
termination_by l => l.length
decreasing_by simp [List.length_drop]; omega

/-- Observable outcome of the `while` loop of main.cpp lines 86–99:
which exit was taken (`completed` = zero-length read, `maxDurationExceeded`
= the `break` at line 94), the bytes that were streamed to the DAC, and
the index of the duration check at which the loop stopped. -/
structure LoopExit where
  result : PlaybackResult
  played : List Nat
  stopChunk : Nat
deriving Repr

/-- The playback `while` loop (main.cpp lines 86–99): read up to 512
bytes; if the read is empty, exit normally; otherwise output the chunk,
then `break` if `millis() - inicioReproduccion > PLAYBACK_DURATION`
(30000 ms).  `k` counts completed chunks, so the k-th duration check reads
the clock as `elapsed (k + 1)`.  (`reproduciendo` stays `true` for the
whole loop: nothing inside it clears the flag, the button check being
commented out, so the `&& reproduciendo` conjunct never ends the loop.) -/
def playLoop (elapsed : Nat → Nat) : List Nat → Nat → LoopExit
  | [], k => ⟨.completed, [], k⟩
  | a :: as, k =>
      let chunk := (a :: as).take 512
      if 30000 < elapsed (k + 1) then ⟨.maxDurationExceeded, chunk, k + 1⟩
      else
        let r := playLoop elapsed ((a :: as).drop 512) (k + 1)
        ⟨r.result, chunk ++ r.played, r.stopChunk⟩
termination_by l _ => l.length
decreasing_by simp [List.length_drop]; omega

/-- Everything a `reproducirAudio` invocation does that the rest of the
system (or an observer) can see. -/
structure PlayOutcome where
  result : PlaybackResult
  /-- whether `dac_output_enable` at line 78 ran (also: whether
  `inicioReproduccion` was overwritten at line 80). -/
  dacEnabled : Bool
  /-- every `dac_output_voltage` value written, in order (the trailing `0`
  is the silence write of line 102). -/
  dacWrites : List Nat
  /-- the DAC level when the function returns. -/
  dacFinal : Nat
  fileOpened : Bool
  fileClosed : Bool
  /-- the value of the global `reproduciendo` when the function returns. -/
  reproduciendo : Bool
  /-- `Serial.println` lines emitted, in order. -/
  log : List String
  stopChunk : Nat

/-- `reproducirAudio` (main.cpp lines 53–105).  `dac0` and `rep0` are the
DAC level and the global `reproduciendo` at entry; the early-return error
paths (lines 56, 62, 73) leave both untouched.  The header check reads 44
bytes but compares only the first four against `wavMagic`; a file shorter
than four bytes never equals the four-byte magic and is rejected.  The
audio stream is everything after the 44-byte header. -/
def reproducirAudio (sdOk fileOk : Bool) (data : List Nat)
    (elapsed : Nat → Nat) (dac0 : Nat) (rep0 : Bool) : PlayOutcome :=
  if sdOk = false then
    { result := .storageUnavailable, dacEnabled := false, dacWrites := [],
      dacFinal := dac0, fileOpened := false, fileClosed := false,
      reproduciendo := rep0,
      log := ["Error: No se pudo inicializar la tarjeta SD"], stopChunk := 0 }
  else if fileOk = false then
    { result := .notFound, dacEnabled := false, dacWrites := [],
      dacFinal := dac0, fileOpened := false, fileClosed := false,
      reproduciendo := rep0,
      log := ["Error: No se encontró calm.wav"], stopChunk := 0 }
  else if data.take 4 ≠ wavMagic then
    { result := .invalidFormat, dacEnabled := false, dacWrites := [],
      dacFinal := dac0, fileOpened := true, fileClosed := true,
      reproduciendo := rep0,
      log := ["Error: Archivo no es WAV válido"], stopChunk := 0 }
  else
    let e := playLoop elapsed (data.drop 44) 0
    { result := e.result, dacEnabled := true,
      dacWrites := e.played.map mapVolume ++ [0], dacFinal := 0,
      fileOpened := true, fileClosed := true, reproduciendo := false,
      log := ["Reproduciendo audio...", "Reproducción finalizada."],
      stopChunk := e.stopChunk }

/-! ## The control loop (`loop`, main.cpp lines 126–152) -/

/-- The global state `loop()` reads and writes (main.cpp lines 27–30)
plus the DAC level. -/
structure SysState where
  umbral : Nat
  reproduciendo : Bool
  ultimoRuido : Nat
  inicioRepro : Nat
  dacLevel : Nat

/-- What the environment supplies to one `loop()` iteration: the
microphone sample, the `millis()` value, and the playback environment
used if this iteration triggers playback. -/
structure LoopInput where
  sample : Nat
  now : Nat
  sdOk : Bool
  fileOk : Bool
  data : List Nat
  elapsed : Nat → Nat

/-- One `loop()` iteration.  The returned `Bool` reports whether the
`if (reproduciendo)` branch (main.cpp lines 127–134) was taken. -/
def loopStep (st : SysState) (inp : LoopInput) : SysState × Bool :=
  if st.reproduciendo then
    (if 30000 < inp.now - st.inicioRepro then
      { st with reproduciendo := false }
    else st, true)
  else if st.umbral < inp.sample then
    if st.ultimoRuido = 0 then
      ({ st with ultimoRuido := inp.now }, false)
    else if 2000 < inp.now - st.ultimoRuido then
      let o := reproducirAudio inp.sdOk inp.fileOk inp.data inp.elapsed
        st.dacLevel st.reproduciendo
      ({ st with reproduciendo := o.reproduciendo,
                 dacLevel := o.dacFinal,
                 inicioRepro := if o.dacEnabled then inp.now else st.inicioRepro,
                 ultimoRuido := 0 }, false)
    else (st, false)
  else ({ st with ultimoRuido := 0 }, false)

/-- Iterating `loop()` over a list of per-iteration inputs; returns the
final state and, per iteration, whether the `if (reproduciendo)` branch
ran. -/
def loopIter (st : SysState) : List LoopInput → SysState × List Bool
  | [] => (st, [])
  | i :: is =>
      let s1 := loopStep st i
      let rest := loopIter s1.1 is
      (rest.1, s1.2 :: rest.2)

/-! ### Basic detector lemmas -/

theorem stepState_below (u r s t : Nat) (h : s ≤ u) :
    stepState u r (s, t) = 0 := by
  simp [stepState, observe, Nat.not_lt.mpr h]

theorem detState_cons (u r : Nat) (p : Nat × Nat) (xs : List (Nat × Nat)) :
    detState u r (p :: xs) = detState u (stepState u r p) xs := rfl

theorem triggerCount_cons (u r : Nat) (p : Nat × Nat) (xs : List (Nat × Nat)) :
    triggerCount u r (p :: xs) =
      (if (observe u r p.1 p.2).2 then 1 else 0) +
        triggerCount u (stepState u r p) xs := rfl

theorem triggerCount_append (u r : Nat) (xs ys : List (Nat × Nat)) :
    triggerCount u r (xs ++ ys) =
      triggerCount u r xs + triggerCount u (detState u r xs) ys := by
  induction xs generalizing r with
  | nil => simp [triggerCount, detState]
  | cons p xs ih =>
      rw [List.cons_append, triggerCount_cons, triggerCount_cons, ih,
        detState_cons]
      omega

theorem detState_append (u r : Nat) (xs ys : List (Nat × Nat)) :
    detState u r (xs ++ ys) = detState u (detState u r xs) ys := by
  simp [detState, List.foldl_append]

theorem lastTime_cons (first q : Nat × Nat) (rest : List (Nat × Nat)) :
    lastTime first (q :: rest) = lastTime q rest := by
  cases rest <;> rfl

/-- In a time-sorted nonempty run, every timestamp lies between the first
and the last one. -/
theorem time_bounds (rest : List (Nat × Nat)) :
    ∀ first : Nat × Nat,
      (first :: rest).Pairwise (fun p q : Nat × Nat => p.2 < q.2) →
      ∀ p ∈ first :: rest, first.2 ≤ p.2 ∧ p.2 ≤ lastTime first rest := by
  induction rest with
  | nil =>
      intro first _ p hp
      simp only [List.mem_singleton] at hp
      subst hp
      exact ⟨le_refl _, le_refl _⟩
  | cons q rest ih =>
      intro first h p hp
      rcases List.pairwise_cons.mp h with ⟨hfirst, htail⟩
      rw [lastTime_cons]
      rcases List.mem_cons.mp hp with hpf | hptail
      · subst hpf
        have hq := (ih q htail q (List.mem_cons_self q rest)).2
        have hlt := hfirst q (List.mem_cons_self q rest)
        exact ⟨le_refl _, by omega⟩
      · have hb := ih q htail p hptail
        have hlt := hfirst p hptail
        exact ⟨le_of_lt hlt, hb.2⟩

/-- The last element of a nonempty list via `getLastD` is a member. -/
theorem getLastD_mem (rest : List (Nat × Nat)) :
    ∀ q first : Nat × Nat, (q :: rest).getLastD first ∈ q :: rest := by
  induction rest with
  | nil => intro q first; simp
  | cons a rest ih =>
      intro q first
      rw [List.getLastD_cons]
      exact List.mem_cons_of_mem q (ih a q)

theorem observe_above_idle (u s t : Nat) (h : u < s) :
    observe u 0 s t = (t, false) := by
  simp [observe, h]

theorem observe_above_within (u r s t : Nat) (h : u < s) (hr : r ≠ 0)
    (hw : t - r ≤ 2000) : observe u r s t = (r, false) := by
  simp [observe, h, hr, Nat.not_lt.mpr hw]

theorem observe_above_fire (u r s t : Nat) (h : u < s) (hr : r ≠ 0)
    (hw : 2000 < t - r) : observe u r s t = (0, true) := by
  simp [observe, h, hr, hw]

theorem observe_below (u r s t : Nat) (h : s ≤ u) :
    observe u r s t = (0, false) := by
  simp [observe, Nat.not_lt.mpr h]

/-- Core window lemma: while every observation of a run lies within a
2000 ms window starting at `A`, and the detector state is Idle or a
timestamp not before `A`, the detector never fires, and the final state is
again Idle or a timestamp not before `A`. -/
theorem window_no_trigger (u : Nat) :
    ∀ (l : List (Nat × Nat)) (r A : Nat),
      (∀ p ∈ l, u < p.1) →
      (∀ p ∈ l, A ≤ p.2 ∧ p.2 ≤ A + 2000) →
      (r = 0 ∨ A ≤ r) →
      triggerCount u r l = 0 ∧ (detState u r l = 0 ∨ A ≤ detState u r l) := by
  intro l
  induction l with
  | nil => intro r A _ _ hr; exact ⟨rfl, hr⟩
  | cons p tl ih =>
      intro r A hs ht hr
      have hsp : u < p.1 := hs p (List.mem_cons_self p tl)
      have htp := ht p (List.mem_cons_self p tl)
      have hs' : ∀ q ∈ tl, u < q.1 := fun q hq => hs q (List.mem_cons_of_mem p hq)
      have ht' : ∀ q ∈ tl, A ≤ q.2 ∧ q.2 ≤ A + 2000 :=
        fun q hq => ht q (List.mem_cons_of_mem p hq)
      by_cases hr0 : r = 0
      · subst hr0
        have hobs := observe_above_idle u p.1 p.2 hsp
        have hstep : stepState u 0 p = p.2 := by
          unfold stepState; rw [hobs]
        obtain ⟨h1, h2⟩ := ih p.2 A hs' ht' (Or.inr htp.1)
        rw [triggerCount_cons, detState_cons, hstep, hobs]
        simpa using ⟨h1, h2⟩
      · have hrA : A ≤ r := hr.resolve_left hr0
        have hw : p.2 - r ≤ 2000 := by omega
        have hobs := observe_above_within u r p.1 p.2 hsp hr0 hw
        have hstep : stepState u r p = r := by
          unfold stepState; rw [hobs]
        obtain ⟨h1, h2⟩ := ih r A hs' ht' (Or.inr hrA)
        rw [triggerCount_cons, detState_cons, hstep, hobs]
        simpa using ⟨h1, h2⟩

/-- If the state holds a positive timestamp `r` and some observation of an
above-threshold run happens later than `r + 2000`, the detector fires at
least once. -/
theorem exists_late_trigger (u : Nat) :
    ∀ (l : List (Nat × Nat)) (r : Nat), 0 < r →
      (∀ p ∈ l, u < p.1) →
      (∃ p ∈ l, r + 2000 < p.2) →
      1 ≤ triggerCount u r l := by
  intro l
  induction l with
  | nil =>
      intro r _ _ hex
      rcases hex with ⟨p, hp, _⟩
      cases hp
  | cons p tl ih =>
      intro r hrpos hs hex
      have hsp : u < p.1 := hs p (List.mem_cons_self p tl)
      have hr0 : r ≠ 0 := by omega
      by_cases hw : 2000 < p.2 - r
      · have hobs := observe_above_fire u r p.1 p.2 hsp hr0 hw
        rw [triggerCount_cons, hobs]
        simp
      · have hw' : p.2 - r ≤ 2000 := by omega
        have hobs := observe_above_within u r p.1 p.2 hsp hr0 hw'
        have hstep : stepState u r p = r := by
          unfold stepState; rw [hobs]
        have hex' : ∃ q ∈ tl, r + 2000 < q.2 := by
          rcases hex with ⟨q, hq, hqt⟩
          rcases List.mem_cons.mp hq with rfl | hq'
          · exfalso; omega
          · exact ⟨q, hq', hqt⟩
        have hrec := ih r hrpos (fun q hq => hs q (List.mem_cons_of_mem p hq)) hex'
        rw [triggerCount_cons, hstep, hobs]
        simpa using hrec

/-- From a positive timestamp `r`, a time-sorted above-threshold run whose
observations all happen within `r + 4000` fires at most once: once it fires
the remaining observations fit in one 2000 ms window. -/
theorem at_most_one_trigger (u : Nat) :
    ∀ (l : List (Nat × Nat)) (r : Nat), 0 < r →
      (∀ p ∈ l, u < p.1) →
      l.Pairwise (fun p q => p.2 < q.2) →
      (∀ p ∈ l, p.2 ≤ r + 4000) →
      triggerCount u r l ≤ 1 := by
  intro l
  induction l with
  | nil => intro r _ _ _ _; simp [triggerCount]
  | cons p tl ih =>
      intro r hrpos hs hpair hb
      have hsp : u < p.1 := hs p (List.mem_cons_self p tl)
      have hr0 : r ≠ 0 := by omega
      rcases List.pairwise_cons.mp hpair with ⟨hhead, htail⟩
      by_cases hw : 2000 < p.2 - r
      · have hobs := observe_above_fire u r p.1 p.2 hsp hr0 hw
        have hstep : stepState u r p = 0 := by
          unfold stepState; rw [hobs]
        have hwin : ∀ q ∈ tl, p.2 ≤ q.2 ∧ q.2 ≤ p.2 + 2000 := by
          intro q hq
          have h1 := hhead q hq
          have h2 := hb q (List.mem_cons_of_mem p hq)
          omega
        have hz := (window_no_trigger u tl 0 p.2
          (fun q hq => hs q (List.mem_cons_of_mem p hq)) hwin (Or.inl rfl)).1
        rw [triggerCount_cons, hstep, hobs, hz]
        simp
      · have hw' : p.2 - r ≤ 2000 := by omega
        have hobs := observe_above_within u r p.1 p.2 hsp hr0 hw'
        have hstep : stepState u r p = r := by
          unfold stepState; rw [hobs]
        have hrec := ih r hrpos (fun q hq => hs q (List.mem_cons_of_mem p hq))
          htail (fun q hq => hb q (List.mem_cons_of_mem p hq))
        rw [triggerCount_cons, hstep, hobs]
        simpa using hrec

/-- A run spanning strictly less than 2000 ms never makes the detector
fire (main.cpp lines 138–148). -/
theorem run_short_no_trigger (u : Nat) (first : Nat × Nat)
    (rest : List (Nat × Nat)) (hrun : isRun u (first :: rest))
    (hspan : lastTime first rest - first.2 < 2000) :
    triggerCount u 0 (first :: rest) = 0 := by
  obtain ⟨hs, _, hpair⟩ := hrun
  have hbounds := time_bounds rest first hpair
  have hwin : ∀ p ∈ first :: rest, first.2 ≤ p.2 ∧ p.2 ≤ first.2 + 2000 := by
    intro p hp
    have h1 := hbounds p hp
    omega
  exact (window_no_trigger u (first :: rest) 0 first.2 hs hwin (Or.inl rfl)).1

/-- A run spanning more than 2000 ms makes the detector fire at least
once. -/
theorem run_long_triggers (u : Nat) (first : Nat × Nat)
    (rest : List (Nat × Nat)) (hrun : isRun u (first :: rest))
    (hspan : 2000 < lastTime first rest - first.2) :
    1 ≤ triggerCount u 0 (first :: rest) := by
  obtain ⟨hs, hpos, _⟩ := hrun
  cases rest with
  | nil => simp [lastTime] at hspan
  | cons q rest' =>
      have hsp : u < first.1 := hs first (List.mem_cons_self first (q :: rest'))
      have hobs := observe_above_idle u first.1 first.2 hsp
      have hstep : stepState u 0 first = first.2 := by
        unfold stepState; rw [hobs]
      have hposf : 0 < first.2 := hpos first (List.mem_cons_self first (q :: rest'))
      have hmem := getLastD_mem rest' q first
      have hex : ∃ p ∈ q :: rest', first.2 + 2000 < p.2 := by
        refine ⟨(q :: rest').getLastD first, hmem, ?_⟩
        unfold lastTime at hspan
        omega
      have hrec := exists_late_trigger u (q :: rest') first.2 hposf
        (fun p hp => hs p (List.mem_cons_of_mem first hp)) hex
      rw [triggerCount_cons, hstep, hobs]
      simpa using hrec

/-- A run spanning more than 2000 ms and at most 4000 ms makes the
detector fire exactly once. -/
theorem run_bounded_one_trigger (u : Nat) (first : Nat × Nat)
    (rest : List (Nat × Nat)) (hrun : isRun u (first :: rest))
    (hspan : 2000 < lastTime first rest - first.2)
    (hspan4 : lastTime first rest - first.2 ≤ 4000) :
    triggerCount u 0 (first :: rest) = 1 := by
  have hge := run_long_triggers u first rest hrun hspan
  obtain ⟨hs, hpos, hpair⟩ := hrun
  rcases List.pairwise_cons.mp hpair with ⟨_, htail⟩
  have hsp : u < first.1 := hs first (List.mem_cons_self first rest)
  have hobs := observe_above_idle u first.1 first.2 hsp
  have hstep : stepState u 0 first = first.2 := by
    unfold stepState; rw [hobs]
  have hposf : 0 < first.2 := hpos first (List.mem_cons_self first rest)
  have hbounds := time_bounds rest first hpair
  have hb : ∀ p ∈ rest, p.2 ≤ first.2 + 4000 := by
    intro p hp
    have h1 := hbounds p (List.mem_cons_of_mem first hp)
    omega
  have hle := at_most_one_trigger u rest first.2 hposf
    (fun p hp => hs p (List.mem_cons_of_mem first hp)) htail hb
  rw [triggerCount_cons, hstep, hobs] at hge ⊢
  simp only [Bool.false_eq_true, if_false, Nat.zero_add] at hge ⊢
  omega

/-! ## Claim C1 — debounce correctness -/

/-- C1 counterexample: the claim says a continuous above-threshold run
spanning more than 2000 ms emits exactly one `Triggered`.  The run below
(threshold 0, samples 1, timestamps 1, 2002, 2003, 4004) spans 4003 ms
and emits two `Triggered` events: the timestamp resets on the first
trigger, so the same uninterrupted run re-arms and fires again 2001 ms
later. -/
theorem claim1_debounce_counterexample :
    isRun 0 [(1, 1), (1, 2002), (1, 2003), (1, 4004)] ∧
    2000 < lastTime (1, 1) [(1, 2002), (1, 2003), (1, 4004)] - 1 ∧
    triggerCount 0 0 [(1, 1), (1, 2002), (1, 2003), (1, 4004)] = 2 := by
  decide

/-- C1 (amended): for every run fed to the detector (samples strictly
above threshold, strictly increasing positive timestamps), a run spanning
strictly less than 2000 ms never emits `Triggered`; a run spanning more
than 2000 ms emits at least one `Triggered` — exactly one when it spans at
most 4000 ms — and whenever the detector emits `Triggered` the detection
state is reset to Idle (timestamp absent). -/
theorem claim1_debounce (u : Nat) (first : Nat × Nat)
    (rest : List (Nat × Nat)) (hrun : isRun u (first :: rest)) :
    (lastTime first rest - first.2 < 2000 →
      triggerCount u 0 (first :: rest) = 0) ∧
    (2000 < lastTime first rest - first.2 →
      1 ≤ triggerCount u 0 (first :: rest)) ∧
    (2000 < lastTime first rest - first.2 →
      lastTime first rest - first.2 ≤ 4000 →
      triggerCount u 0 (first :: rest) = 1) ∧
    (∀ r s t, (observe u r s t).2 = true → (observe u r s t).1 = 0) := by
  refine ⟨run_short_no_trigger u first rest hrun,
    run_long_triggers u first rest hrun,
    run_bounded_one_trigger u first rest hrun, ?_⟩
  intro r s t htrig
  by_cases h1 : u < s
  · by_cases h2 : r = 0
    · subst h2
      rw [observe_above_idle u s t h1] at htrig
      simp at htrig
    · by_cases h3 : 2000 < t - r
      · rw [observe_above_fire u r s t h1 h2 h3]
      · rw [observe_above_within u r s t h1 h2 (by omega)] at htrig
        simp at htrig
  · rw [observe_below u r s t (by omega)]

/-- Witness for C1: a 1499 ms run at threshold 0 emits nothing. -/
theorem claim1_debounce_witness :
    triggerCount 0 0 ((1, 1) :: [(1, 1500)]) = 0 :=
  (claim1_debounce 0 (1, 1) [(1, 1500)] (by decide)).1 (by decide)

/-! ## Claim C2 — calibration result -/

/-- C2 counterexample: fifty samples of 1 and fifty of 2 have exact mean
1.5, so the claimed threshold is `round(1.5 * 2.5) = round(3.75) = 4`;
the code truncates the mean to 1 first (`suma / muestras` in integer
division) and then truncates `1 * 2.5`, producing 2. -/
theorem claim2_calibration_counterexample :
    (List.replicate 50 1 ++ List.replicate 50 2).length = 100 ∧
    calibrarUmbral (List.replicate 50 1 ++ List.replicate 50 2) = 2 ∧
    specRoundThreshold (List.replicate 50 1 ++ List.replicate 50 2) = 4 ∧
    (calibrarUmbral (List.replicate 50 1 ++ List.replicate 50 2) : ℤ) ≠
      specRoundThreshold (List.replicate 50 1 ++ List.replicate 50 2) := by
  have hs : (List.replicate 50 1 ++ List.replicate 50 2).sum = 150 := by decide
  have hl : (List.replicate 50 1 ++ List.replicate 50 2).length = 100 := by
    decide
  have hround : specRoundThreshold (List.replicate 50 1 ++ List.replicate 50 2)
      = 4 := by
    unfold specRoundThreshold
    rw [hs, hl]
    norm_num [round_eq]
  have hcal : calibrarUmbral (List.replicate 50 1 ++ List.replicate 50 2) = 2 :=
    by decide
  refine ⟨hl, hcal, hround, ?_⟩
  rw [hcal, hround]
  decide

/-- C2 (amended): for every sequence of 100 baseline samples,
`calibrate()` sets the threshold to `⌊⌊mean⌋ * 2.5⌋`: the mean is first
truncated by integer division (`suma / muestras`), then the product with
the multiplier 2.5 is truncated toward zero — no rounding happens at
either step. -/
theorem claim2_calibration (samples : List Nat)
    (h : samples.length = 100) :
    (calibrarUmbral samples : ℤ) = specTruncThreshold samples := by
  unfold calibrarUmbral specTruncThreshold
  have hx : ((samples.sum / 100 : ℕ) : ℚ) * (5 / 2) =
      ((samples.sum / 100 * 5 : ℕ) : ℚ) / ((2 : ℕ) : ℚ) := by
    push_cast
    ring
  rw [hx, ← Int.natCast_floor_eq_floor (by positivity), Nat.floor_div_eq_div]

/-- Witness for C2 at a concrete all-3 baseline (mean 3, threshold 7). -/
theorem claim2_calibration_witness :
    (calibrarUmbral (List.replicate 100 3) : ℤ) =
      specTruncThreshold (List.replicate 100 3) :=
  claim2_calibration (List.replicate 100 3) (by decide)

/-! ## Claim C6 — threshold positivity invariant -/

/-- C6 counterexample: an all-zero baseline (a legal sequence of 100
non-negative ADC readings) yields `noiseThreshold = 0`, violating the
claimed invariant `noiseThreshold > 0`. -/
theorem claim6_threshold_counterexample :
    (List.replicate 100 0).length = 100 ∧
    ¬ 0 < calibrarUmbral (List.replicate 100 0) := by
  decide

/-- C6 (amended): after `calibrate()` completes on 100 baseline samples,
the threshold is strictly positive iff the samples sum to at least 100
(truncated mean at least 1); degenerate baselines — all-zero in
particular — yield threshold 0. -/
theorem claim6_threshold (samples : List Nat) (h : samples.length = 100) :
    0 < calibrarUmbral samples ↔ 100 ≤ samples.sum := by
  unfold calibrarUmbral
  constructor
  · intro hpos
    by_contra hlt
    push_neg at hlt
    have hz : samples.sum / 100 = 0 := Nat.div_eq_of_lt hlt
    rw [hz] at hpos
    simp at hpos
  · intro hge
    have h1 : 1 ≤ samples.sum / 100 := (Nat.one_le_div_iff (by norm_num)).mpr hge
    exact Nat.div_pos (by omega) (by norm_num)

/-- Witness for C6 at a concrete all-1 baseline. -/
theorem claim6_threshold_witness :
    0 < calibrarUmbral (List.replicate 100 1) ↔
      100 ≤ (List.replicate 100 1).sum :=
  claim6_threshold (List.replicate 100 1) (by decide)

/-! ## Claim C7 — interruption resets detection state -/

/-- C7: an above-threshold run spanning at most 1000 ms, one
below-threshold sample, and another above-threshold run spanning at most
1500 ms never trigger; the below-threshold sample clears the timestamp
(the state right after it is Idle), and in general any below-threshold
observation forces the timestamp to absent. -/
theorem claim7_interruption (u : Nat) (f1 : Nat × Nat)
    (r1 : List (Nat × Nat)) (below : Nat × Nat) (f2 : Nat × Nat)
    (r2 : List (Nat × Nat))
    (h1 : isRun u (f1 :: r1))
    (hspan1 : lastTime f1 r1 - f1.2 ≤ 1000)
    (hb : below.1 ≤ u)
    (h2 : isRun u (f2 :: r2))
    (hspan2 : lastTime f2 r2 - f2.2 ≤ 1500) :
    triggerCount u 0 ((f1 :: r1) ++ below :: f2 :: r2) = 0 ∧
    detState u 0 ((f1 :: r1) ++ [below]) = 0 ∧
    (∀ r s t, s ≤ u → (observe u r s t).1 = 0) := by
  obtain ⟨hs1, hpos1, hpair1⟩ := h1
  obtain ⟨hs2, hpos2, hpair2⟩ := h2
  have hbounds1 := time_bounds r1 f1 hpair1
  have hwin1 : ∀ p ∈ f1 :: r1, f1.2 ≤ p.2 ∧ p.2 ≤ f1.2 + 2000 := by
    intro p hp
    have := hbounds1 p hp
    omega
  have hz1 := (window_no_trigger u (f1 :: r1) 0 f1.2 hs1 hwin1 (Or.inl rfl)).1
  have hbounds2 := time_bounds r2 f2 hpair2
  have hwin2 : ∀ p ∈ f2 :: r2, f2.2 ≤ p.2 ∧ p.2 ≤ f2.2 + 2000 := by
    intro p hp
    have := hbounds2 p hp
    omega
  have hz2 := (window_no_trigger u (f2 :: r2) 0 f2.2 hs2 hwin2 (Or.inl rfl)).1
  have hobs_b : observe u (detState u 0 (f1 :: r1)) below.1 below.2 =
      (0, false) := observe_below u _ below.1 below.2 hb
  have hstep_b : stepState u (detState u 0 (f1 :: r1)) below = 0 := by
    unfold stepState
    rw [hobs_b]
  refine ⟨?_, ?_, ?_⟩
  · rw [triggerCount_append, hz1, triggerCount_cons, hstep_b, hobs_b, hz2]
    simp
  · rw [detState_append]
    simpa [detState] using hstep_b
  · intro r s t hst
    rw [observe_below u r s t hst]

/-- Witness for C7: 1000 ms of noise, one quiet sample, 1500 ms of noise,
at threshold 10 — no trigger, and the quiet sample clears the state. -/
theorem claim7_interruption_witness :
    triggerCount 10 0 (((11, 1) :: [(11, 1001)]) ++
      (5, 1010) :: (11, 1020) :: [(11, 2520)]) = 0 ∧
    detState 10 0 (((11, 1) :: [(11, 1001)]) ++ [(5, 1010)]) = 0 ∧
    (∀ r s t, s ≤ 10 → (observe 10 r s t).1 = 0) :=
  claim7_interruption 10 (11, 1) [(11, 1001)] (5, 1010) (11, 1020)
    [(11, 2520)] (by decide) (by decide) (by decide) (by decide) (by decide)

/-! ### Playback loop lemmas -/

/-- The playback `while` loop exits only through the zero-length read
(`completed`) or the duration `break` (`maxDurationExceeded`). -/
theorem playLoop_result (elapsed : Nat → Nat) :
    ∀ (n : Nat) (l : List Nat) (k : Nat), l.length ≤ n →
      (playLoop elapsed l k).result = .completed ∨
      (playLoop elapsed l k).result = .maxDurationExceeded := by
  intro n
  induction n with
  | zero =>
      intro l k hl
      have hnil : l = [] := List.eq_nil_of_length_eq_zero (by omega)
      subst hnil
      left
      simp [playLoop]
  | succ n ih =>
      intro l k hl
      cases l with
      | nil => left; simp [playLoop]
      | cons a as =>
          simp only [playLoop]
          split
          · right; rfl
          · have hlen : ((a :: as).drop 512).length ≤ n := by
              simp [List.length_drop] at hl ⊢
              omega
            simpa using ih ((a :: as).drop 512) (k + 1) hlen

/-- Duration-cap lemma for the playback loop.  If consecutive duration
checks are at most `cost` ms apart (one chunk's processing time), the
check at entry is within the cap, and the check after the last chunk is
beyond the cap, then the loop exits through the `break` and the clock at
the exit check is in `(30000, 30000 + cost]`. -/
theorem playLoop_cap (elapsed : Nat → Nat) (cost : Nat)
    (hstep : ∀ j, elapsed (j + 1) ≤ elapsed j + cost) :
    ∀ (n : Nat) (l : List Nat) (k : Nat), l.length ≤ n →
      elapsed k ≤ 30000 →
      30000 < elapsed (k + numChunks l) →
      (playLoop elapsed l k).result = .maxDurationExceeded ∧
      30000 < elapsed ((playLoop elapsed l k).stopChunk) ∧
      elapsed ((playLoop elapsed l k).stopChunk) ≤ 30000 + cost := by
  intro n
  induction n with
  | zero =>
      intro l k hl hk hlong
      have hnil : l = [] := List.eq_nil_of_length_eq_zero (by omega)
      subst hnil
      simp [numChunks] at hlong
      omega
  | succ n ih =>
      intro l k hl hk hlong
      cases l with
      | nil =>
          simp [numChunks] at hlong
          omega
      | cons a as =>
          have hnum : numChunks (a :: as) =
              numChunks ((a :: as).drop 512) + 1 := by
            rw [numChunks]
          simp only [playLoop]
          split
          · next hcond =>
              refine ⟨rfl, ?_, ?_⟩ <;> simp only []
              · exact hcond
              · have := hstep k
                omega
          · next hcond =>
              push_neg at hcond
              have hlen : ((a :: as).drop 512).length ≤ n := by
                simp [List.length_drop] at hl ⊢
                omega
              have harg : k + 1 + numChunks ((a :: as).drop 512) =
                  k + numChunks (a :: as) := by
                omega
              have hrec := ih ((a :: as).drop 512) (k + 1) hlen hcond
                (by rw [harg]; exact hlong)
              simpa using hrec

/-- `reproducirAudio` never returns with `reproduciendo = true` when it was
`false` at entry: the error paths leave the flag untouched and the success
path clears it at line 103. -/
theorem play_keeps_not_playing (sdOk fileOk : Bool) (data : List Nat)
    (elapsed : Nat → Nat) (dac0 : Nat) :
    (reproducirAudio sdOk fileOk data elapsed dac0 false).reproduciendo =
      false := by
  cases sdOk with
  | false => simp [reproducirAudio]
  | true =>
      cases fileOk with
      | false => simp [reproducirAudio]
      | true =>
          by_cases hm : data.take 4 = wavMagic
          · simp [reproducirAudio, hm]
          · simp [reproducirAudio, hm]

/-- A `loop()` iteration entered with `reproduciendo = false` neither takes
the playback branch nor leaves `reproduciendo` set. -/
theorem loopStep_from_idle (st : SysState) (inp : LoopInput)
    (h : st.reproduciendo = false) :
    (loopStep st inp).2 = false ∧
    (loopStep st inp).1.reproduciendo = false := by
  unfold loopStep
  rw [h]
  by_cases h1 : st.umbral < inp.sample
  · by_cases h2 : st.ultimoRuido = 0
    · simp [h1, h2, h]
    · by_cases h3 : 2000 < inp.now - st.ultimoRuido
      · simp only [h1, h2, h3, Bool.false_eq_true, if_false, if_true,
          if_neg h2]
        simp [play_keeps_not_playing]
      · simp [h1, h2, h3, h]
  · simp [h1, h]

/-! ## Claim C9 — the loop's isPlaying branch is dead -/

/-- C9: starting from any state with `reproduciendo = false` (as `setup()`
leaves it), every `loop()` iteration begins with `reproduciendo = false` —
so the `if (reproduciendo)` branch, with its force-stop and its distinct
stop log line, never runs — and `reproduciendo` is false again after the
whole input sequence.  Playback is synchronous and `reproducirAudio`
clears the flag before returning, so no reachable state re-enters the
branch. -/
theorem claim9_playing_branch_dead (st0 : SysState)
    (h : st0.reproduciendo = false) (inputs : List LoopInput) :
    (loopIter st0 inputs).2 = List.replicate inputs.length false ∧
    (loopIter st0 inputs).1.reproduciendo = false := by
  induction inputs generalizing st0 with
  | nil => simpa [loopIter] using h
  | cons i is ih =>
      have hstep := loopStep_from_idle st0 i h
      have hrec := ih (loopStep st0 i).1 hstep.2
      simp only [loopIter, List.length_cons, List.replicate_succ]
      exact ⟨by rw [hstep.1, hrec.1], hrec.2⟩

/-- Witness for C9: two iterations — the second one would fire the
trigger — never take the playback branch. -/
theorem claim9_playing_branch_dead_witness :
    (loopIter ⟨100, false, 0, 0, 0⟩
      [⟨200, 1, true, true, [], fun _ => 0⟩,
       ⟨200, 2002, true, true, [], fun _ => 0⟩]).2 =
      List.replicate (List.length
        [(⟨200, 1, true, true, [], fun _ => 0⟩ : LoopInput),
         ⟨200, 2002, true, true, [], fun _ => 0⟩]) false ∧
    (loopIter ⟨100, false, 0, 0, 0⟩
      [⟨200, 1, true, true, [], fun _ => 0⟩,
       ⟨200, 2002, true, true, [], fun _ => 0⟩]).1.reproduciendo = false :=
  claim9_playing_branch_dead ⟨100, false, 0, 0, 0⟩ rfl
    [⟨200, 1, true, true, [], fun _ => 0⟩,
     ⟨200, 2002, true, true, [], fun _ => 0⟩]

/-! ## Claim C3 — playback duration cap -/

/-- C3: for an asset whose audio would take longer than 30000 ms to play
(the duration check after its last chunk reads past the cap), playback
exits through the duration `break` and reports the `MaxDurationExceeded`
path, and the clock at the stopping check is past the cap by at most one
chunk's processing time `cost`. -/
theorem claim3_duration_cap (data : List Nat) (elapsed : Nat → Nat)
    (cost : Nat) (hmagic : data.take 4 = wavMagic) (h0 : elapsed 0 = 0)
    (hstep : ∀ j, elapsed (j + 1) ≤ elapsed j + cost)
    (hlong : 30000 < elapsed (numChunks (data.drop 44))) :
    (reproducirAudio true true data elapsed 0 false).result =
      .maxDurationExceeded ∧
    30000 < elapsed ((reproducirAudio true true data elapsed 0 false).stopChunk) ∧
    elapsed ((reproducirAudio true true data elapsed 0 false).stopChunk) ≤
      30000 + cost := by
  have hcap := playLoop_cap elapsed cost hstep (data.drop 44).length
    (data.drop 44) 0 (le_refl _) (by omega) (by simpa using hlong)
  unfold reproducirAudio
  simp only [hmagic]
  simpa using hcap

/-- Witness for C3: a 45-byte asset (one audio byte) with 40000 ms spent
on its single chunk stops at the first check, at 40000 ms ≤ 30000+40000. -/
theorem claim3_duration_cap_witness :
    (reproducirAudio true true (([82, 73, 70, 70] ++ List.replicate 40 0)
        ++ [7]) (fun k => 40000 * k) 0 false).result =
      .maxDurationExceeded ∧
    30000 < (fun k => 40000 * k)
      ((reproducirAudio true true (([82, 73, 70, 70] ++ List.replicate 40 0)
        ++ [7]) (fun k => 40000 * k) 0 false).stopChunk) ∧
    (fun k => 40000 * k)
      ((reproducirAudio true true (([82, 73, 70, 70] ++ List.replicate 40 0)
        ++ [7]) (fun k => 40000 * k) 0 false).stopChunk) ≤ 30000 + 40000 :=
  claim3_duration_cap (([82, 73, 70, 70] ++ List.replicate 40 0) ++ [7])
    (fun k => 40000 * k) 40000 (by decide) (by norm_num)
    (fun j => by simp; omega)
    (by
      have hdrop : ((([82, 73, 70, 70] : List Nat) ++ List.replicate 40 0)
          ++ [7]).drop 44 = [7] := by decide
      rw [hdrop, numChunks]
      norm_num [numChunks])

/-! ## Claim C4 — format rejection -/

/-- C4: for every opened asset whose first four bytes are not
'R','I','F','F', `reproducirAudio` takes the `invalidFormat` exit after
closing the handle: it performs no DAC write at all (in particular never
drives a non-zero level), never enables the DAC channel, and leaves the
output level unchanged.  The model is a total function, so this path
cannot crash. -/
theorem claim4_format_rejection (data : List Nat) (elapsed : Nat → Nat)
    (dac0 : Nat) (rep0 : Bool) (hmagic : data.take 4 ≠ wavMagic) :
    (reproducirAudio true true data elapsed dac0 rep0).result =
      .invalidFormat ∧
    (reproducirAudio true true data elapsed dac0 rep0).fileClosed = true ∧
    (reproducirAudio true true data elapsed dac0 rep0).dacWrites = [] ∧
    (reproducirAudio true true data elapsed dac0 rep0).dacEnabled = false ∧
    (reproducirAudio true true data elapsed dac0 rep0).dacFinal = dac0 := by
  unfold reproducirAudio
  simp [hmagic]

/-- Witness for C4: a four-zero-byte header is rejected. -/
theorem claim4_format_rejection_witness :
    (reproducirAudio true true [0, 0, 0, 0] (fun _ => 0) 5 false).result =
      .invalidFormat ∧
    (reproducirAudio true true [0, 0, 0, 0] (fun _ => 0) 5 false).fileClosed =
      true ∧
    (reproducirAudio true true [0, 0, 0, 0] (fun _ => 0) 5 false).dacWrites =
      [] ∧
    (reproducirAudio true true [0, 0, 0, 0] (fun _ => 0) 5 false).dacEnabled =
      false ∧
    (reproducirAudio true true [0, 0, 0, 0] (fun _ => 0) 5 false).dacFinal =
      5 :=
  claim4_format_rejection [0, 0, 0, 0] (fun _ => 0) 5 false (by decide)

/-! ## Claim C5 — unconditional cleanup -/

/-- C5: every call to `reproducirAudio` from a reachable program state
(output at silence, `reproduciendo` false — which C9 shows is every call
the loop makes), on every exit path and for every outcome, returns with
the DAC at the zero level, with `reproduciendo` false, and with the asset
handle closed whenever one was opened. -/
theorem claim5_cleanup (sdOk fileOk : Bool) (data : List Nat)
    (elapsed : Nat → Nat) :
    (reproducirAudio sdOk fileOk data elapsed 0 false).dacFinal = 0 ∧
    (reproducirAudio sdOk fileOk data elapsed 0 false).reproduciendo =
      false ∧
    ((reproducirAudio sdOk fileOk data elapsed 0 false).fileOpened = true →
      (reproducirAudio sdOk fileOk data elapsed 0 false).fileClosed =
        true) := by
  cases sdOk with
  | false => simp [reproducirAudio]
  | true =>
      cases fileOk with
      | false => simp [reproducirAudio]
      | true =>
          by_cases hm : data.take 4 = wavMagic
          · simp [reproducirAudio, hm]
          · simp [reproducirAudio, hm]

/-! ## Claim C8 — termination logging -/

/-- C8 counterexample: a clean completion (44-byte asset, empty audio
stream) and a duration-cap stop (45-byte asset whose single chunk takes
40000 ms) emit exactly the same log lines — both fall through to the one
`"Reproducción finalizada."` println at line 104 — so the two outcomes are
not distinguishable in the operator log, contrary to the claim. -/
theorem claim8_log_counterexample :
    (reproducirAudio true true ([82, 73, 70, 70] ++ List.replicate 40 0)
      (fun _ => 0) 0 false).result = .completed ∧
    (reproducirAudio true true (([82, 73, 70, 70] ++ List.replicate 40 0)
      ++ [7]) (fun k => 40000 * k) 0 false).result = .maxDurationExceeded ∧
    (reproducirAudio true true ([82, 73, 70, 70] ++ List.replicate 40 0)
      (fun _ => 0) 0 false).log =
    (reproducirAudio true true (([82, 73, 70, 70] ++ List.replicate 40 0)
      ++ [7]) (fun k => 40000 * k) 0 false).log := by
  have htakeA : (([82, 73, 70, 70] : List Nat) ++ List.replicate 40 0).take 4
      = wavMagic := by decide
  have hdropA : (([82, 73, 70, 70] : List Nat) ++ List.replicate 40 0).drop 44
      = [] := by decide
  have htakeB : ((([82, 73, 70, 70] : List Nat) ++ List.replicate 40 0)
      ++ [7]).take 4 = wavMagic := by decide
  have hdropB : ((([82, 73, 70, 70] : List Nat) ++ List.replicate 40 0)
      ++ [7]).drop 44 = [7] := by decide
  unfold reproducirAudio
  simp only [htakeA, hdropA, htakeB, hdropB]
  norm_num [playLoop]

/-- C8 (amended): both normal-termination outcomes of `reproducirAudio` —
stop at the duration cap and clean completion — emit the same two log
lines, ending in `"Reproducción finalizada."`; the operator log does not
distinguish them.  (The distinct line `"Reproducción detenida por tiempo
máximo."` exists only in the `loop()` branch that C9 shows is never
executed.) -/
theorem claim8_termination_log (sdOk fileOk : Bool) (data : List Nat)
    (elapsed : Nat → Nat) (dac0 : Nat) (rep0 : Bool)
    (h : (reproducirAudio sdOk fileOk data elapsed dac0 rep0).result =
        .maxDurationExceeded ∨
      (reproducirAudio sdOk fileOk data elapsed dac0 rep0).result =
        .completed) :
    (reproducirAudio sdOk fileOk data elapsed dac0 rep0).log =
      ["Reproduciendo audio...", "Reproducción finalizada."] := by
  cases sdOk with
  | false => simp [reproducirAudio] at h
  | true =>
      cases fileOk with
      | false => simp [reproducirAudio] at h
      | true =>
          by_cases hm : data.take 4 = wavMagic
          · simp [reproducirAudio, hm]
          · simp [reproducirAudio, hm] at h

/-- Witness for C8: the cap-stopped playback of the 45-byte asset logs the
shared completion lines. -/
theorem claim8_termination_log_witness :
    (reproducirAudio true true (([82, 73, 70, 70] ++ List.replicate 40 0)
      ++ [7]) (fun k => 40000 * k) 0 false).log =
      ["Reproduciendo audio...", "Reproducción finalizada."] :=
  claim8_termination_log true true
    (([82, 73, 70, 70] ++ List.replicate 40 0) ++ [7])
    (fun k => 40000 * k) 0 false
    (Or.inl (by
      have htakeB : ((([82, 73, 70, 70] : List Nat) ++ List.replicate 40 0)
          ++ [7]).take 4 = wavMagic := by decide
      have hdropB : ((([82, 73, 70, 70] : List Nat) ++ List.replicate 40 0)
          ++ [7]).drop 44 = [7] := by decide
      unfold reproducirAudio
      simp only [htakeB, hdropB]
      norm_num [playLoop]))

/-! ## Claim C10 — only the four magic bytes are validated -/

/-- C10: for every asset whose first four bytes are 'R','I','F','F',
header validation succeeds and playback proceeds — the DAC channel is
enabled and the call exits through one of the two streaming exits, never
`invalidFormat` — for arbitrary contents of header bytes 4 through 43 (the
`data` after the magic is universally quantified; sample rate, bit depth
and channel count are never inspected). -/
theorem claim10_header_check (data : List Nat) (elapsed : Nat → Nat)
    (dac0 : Nat) (rep0 : Bool) (hmagic : data.take 4 = wavMagic) :
    (reproducirAudio true true data elapsed dac0 rep0).result ≠
      .invalidFormat ∧
    ((reproducirAudio true true data elapsed dac0 rep0).result =
        .completed ∨
      (reproducirAudio true true data elapsed dac0 rep0).result =
        .maxDurationExceeded) ∧
    (reproducirAudio true true data elapsed dac0 rep0).dacEnabled = true := by
  have hres := playLoop_result elapsed (data.drop 44).length (data.drop 44) 0
    (le_refl _)
  unfold reproducirAudio
  simp only [hmagic]
  refine ⟨?_, by simpa using hres, by simp⟩
  rcases hres with h | h <;> simp [h]

/-- Witness for C10: a bare "RIFF" header with garbage would proceed; here
the stream is empty and playback completes. -/
theorem claim10_header_check_witness :
    (reproducirAudio true true [82, 73, 70, 70] (fun _ => 0) 0
      false).result ≠ .invalidFormat ∧
    ((reproducirAudio true true [82, 73, 70, 70] (fun _ => 0) 0
        false).result = .completed ∨
      (reproducirAudio true true [82, 73, 70, 70] (fun _ => 0) 0
        false).result = .maxDurationExceeded) ∧
    (reproducirAudio true true [82, 73, 70, 70] (fun _ => 0) 0
      false).dacEnabled = true :=
  claim10_header_check [82, 73, 70, 70] (fun _ => 0) 0 false (by decide)

end Calmdog
